import Mathlib

set_option maxRecDepth 8000
set_option maxHeartbeats 4000000

/-!
Shallow embedding of the intent-resolution pipeline of the customer-support
chatbot repository: the baseline keyword classifier and its analytics
(chatbot_core.py), the corpus-enhanced matcher and orchestrator
(enhanced_chatbot_with_dataset.py), the dataset integrator
(dataset_integration.py) and the OpenAI adapter (openai_chatbot.py).

Conventions of the embedding:
- Confidence values are rationals; the Python float literals 0.9, 0.8, 0.2,
  0.7, 0.95, 0.5 are embedded as the corresponding rationals.
- `random.choice` is embedded as selection by an explicit index parameter.
- Wall-clock timestamps and measured latencies are outside the embedding;
  latency samples are recorded as 0.
- Python `needle in hay` on strings is `pyIn`, `str.lower()` is `pyLower`,
  `str.strip()` is `String.trim` (the repository only uses ASCII text).
-/

namespace Chatbot

/-- Does the first list occur at the very start of the second list. -/
def strStartAt : List Char → List Char → Bool
  | [], _ => true
  | _ :: _, [] => false
  | a :: as, b :: bs => a == b && strStartAt as bs

/-- Does `needle` occur contiguously anywhere inside the second list. -/
def subList (needle : List Char) : List Char → Bool
  | [] => needle.isEmpty
  | b :: bs => strStartAt needle (b :: bs) || subList needle bs

/-- Python membership test on strings: `needle in hay`. -/
def pyIn (needle hay : String) : Bool := subList needle.toList hay.toList

/-- Python `str.lower()` for the ASCII strings of this repository. -/
def pyLower (s : String) : String := s.toLower

/-- Python `random.choice` from a list, with the random index made explicit. -/
def pyChoice (l : List String) (k : Nat) : String := l.getD (k % l.length) ""

/-- One entry of the intent catalog: keyword phrases and candidate responses. -/
structure IntentData where
  keywords : List String
  responses : List String
deriving DecidableEq

/-- The intent catalog built by CustomerSupportChatbot (chatbot_core.py:42-135),
in source (dict-insertion) order. -/
def intents : List (String × IntentData) := [
  ("greeting", ⟨["hi", "hello", "hey", "good morning", "good afternoon", "good evening"],
    ["Hi! Welcome to our customer support. How can I help you today?",
     "Hello! I\x27m here to assist you with any questions or concerns.",
     "Hi there! Welcome to our support center. What can I help you with?",
     "Hello! How can I make your day better today?"]⟩),
  ("order_status", ⟨["order", "status", "tracking", "shipped", "delivery", "where is my order", "track my order"],
    ["I can help you track your order! Please provide your order number and I\x27ll check the status for you.",
     "To check your order status, I\x27ll need your order number. What\x27s your order number?",
     "I can look up your order status. Please share your order number with me.",
     "Let me help you track your order. Could you please provide your order number?"]⟩),
  ("shipping", ⟨["shipping", "delivery", "shipping time", "how long", "when will it arrive", "delivery time"],
    ["We offer standard shipping (3-5 business days) and express shipping (1-2 business days). Which option would you like to know more about?",
     "Shipping times vary by location. Standard delivery is 3-5 days, express is 1-2 days.",
     "We have two shipping options: standard (3-5 days) and express (1-2 days). Which would you prefer?",
     "Standard shipping takes 3-5 business days, while express shipping takes 1-2 business days."]⟩),
  ("returns", ⟨["return", "refund", "exchange", "cancel", "return policy", "how to return"],
    ["We offer a 30-day return policy. Items must be in original condition with packaging. Would you like me to help you start a return?",
     "Returns are accepted within 30 days of purchase. Please keep your receipt and original packaging.",
     "You can return items within 30 days. I can help you start the return process if you\x27d like.",
     "Our return policy allows returns within 30 days. Items must be in original condition."]⟩),
  ("payment", ⟨["payment", "billing", "charge", "credit card", "payment method", "invoice", "billing issue"],
    ["We accept all major credit cards, PayPal, and bank transfers. How can I help with your payment?",
     "You can pay with Visa, MasterCard, American Express, PayPal, or bank transfer.",
     "We accept multiple payment methods including credit cards and PayPal. What payment issue can I help with?",
     "For payment assistance, we accept credit cards, PayPal, and bank transfers."]⟩),
  ("product_info", ⟨["product", "specifications", "features", "size", "color", "availability", "product details"],
    ["I\x27d be happy to help with product information. Which product are you interested in?",
     "Let me get you the details on that product. What specific information do you need?",
     "I can provide product specifications and availability. What product are you asking about?",
     "I\x27d love to help with product details. Which product would you like to know more about?"]⟩),
  ("contact", ⟨["contact", "phone", "email", "support", "help", "speak to someone", "human agent"],
    ["You can reach our support team at support@company.com or call 1-800-SUPPORT. Our team is available 24/7!",
     "For immediate assistance, call us at 1-800-SUPPORT or email support@company.com.",
     "Our support team is available 24/7. Call 1-800-SUPPORT or email support@company.com.",
     "You can contact us at support@company.com or call 1-800-SUPPORT for immediate help."]⟩),
  ("account", ⟨["account", "login", "password", "profile", "sign up", "register", "account issue"],
    ["I can help with account issues. Are you having trouble logging in or creating an account?",
     "For account support, please provide your email address and I\x27ll assist you.",
     "I can help with account-related questions. What specific issue are you experiencing?",
     "Let me help you with your account. What\x27s the problem you\x27re facing?"]⟩),
  ("complaint", ⟨["complaint", "problem", "issue", "dissatisfied", "unhappy", "bad experience"],
    ["I\x27m sorry to hear about your experience. Let me help resolve this issue for you. Can you tell me more details?",
     "I apologize for any inconvenience. I\x27m here to help make things right. What happened?",
     "I\x27m sorry you\x27re having a problem. Let me assist you in resolving this issue.",
     "I understand your concern. Let me help you with this issue right away."]⟩),
  ("goodbye", ⟨["bye", "goodbye", "thanks", "thank you", "see you", "farewell"],
    ["You\x27re welcome! Have a great day!",
     "Thank you for contacting us! Feel free to reach out anytime.",
     "Happy to help! Take care!",
     "You\x27re welcome! Don\x27t hesitate to contact us if you need anything else."]⟩)]

/-- Keyword-hit count of one catalog entry against the lowered input
(the inner loop of _find_best_intent, chatbot_core.py:172-176). -/
def scoreOf (lower : String) (p : String × IntentData) : Nat :=
  (p.2.keywords.filter (fun k => pyIn k lower)).length

/-- One step of the scoring loop of _find_best_intent: replacement happens only
on a strictly greater score. -/
def keywordStep (lower : String) (acc : Nat × String) (p : String × IntentData) :
    Nat × String :=
  if scoreOf lower p > acc.1 then (scoreOf lower p, p.1) else acc

/-- Best score and best intent of _find_best_intent (chatbot_core.py:166-181),
starting from score 0 and the sentinel intent "fallback". -/
def keyword_best (user_input : String) : Nat × String :=
  intents.foldl (keywordStep (pyLower user_input)) (0, "fallback")

/-- _find_best_intent (chatbot_core.py:166-185): best intent plus confidence
min(score / 3.0, 1.0) when the score is positive, else 0.0. -/
def find_best_intent (user_input : String) : String × ℚ :=
  let b := keyword_best user_input
  (b.2, if b.1 > 0 then min ((b.1 : ℚ) / 3) 1 else 0)

/-- One labeled example of the Kaggle-style sample dataset. -/
structure DialogExample where
  input : String
  output : String
  intent : String
deriving DecidableEq

/-- The sample dataset of DatasetIntegrator._create_sample_dataset
(dataset_integration.py:46-104), in source order. -/
def sample_dialogs : List DialogExample := [
  ⟨"Hello", "Hi there! How can I help you today?", "greeting"⟩,
  ⟨"Hi", "Hello! Welcome to our customer support. What can I assist you with?", "greeting"⟩,
  ⟨"Good morning", "Good morning! How can I make your day better today?", "greeting"⟩,
  ⟨"Hey there", "Hey! I\x27m here to help. What questions do you have?", "greeting"⟩,
  ⟨"Where is my order?", "I can help you track your order! Please provide your order number and I\x27ll check the status for you.", "order_status"⟩,
  ⟨"Order status", "To check your order status, please provide your order number.", "order_status"⟩,
  ⟨"Track my package", "I\x27d be happy to help you track your package. What\x27s your order number?", "order_status"⟩,
  ⟨"Is my order shipped?", "Let me check your order status. Please provide your order number.", "order_status"⟩,
  ⟨"How long does shipping take?", "We offer standard shipping (3-5 business days) and express shipping (1-2 business days). Which option would you like to know more about?", "shipping"⟩,
  ⟨"Shipping time", "Shipping times vary. Standard delivery is 3-5 days, express is 1-2 days.", "shipping"⟩,
  ⟨"When will it arrive?", "Our shipping options are standard (3-5 days) and express (1-2 days).", "shipping"⟩,
  ⟨"Delivery time", "We have two shipping options: standard (3-5 days) and express (1-2 days). Which would you prefer?", "shipping"⟩,
  ⟨"I want to return this", "We offer a 30-day return policy. Items must be in original condition with packaging. Would you like me to help you start a return?", "returns"⟩,
  ⟨"Return policy", "Returns are accepted within 30 days of purchase. Please keep your receipt and original packaging.", "returns"⟩,
  ⟨"How do I return?", "You can return items within 30 days for a full refund. Do you need assistance with the return process?", "returns"⟩,
  ⟨"Refund", "Our return policy allows returns within 30 days. Items must be in original condition.", "returns"⟩,
  ⟨"What payment methods do you accept?", "We accept all major credit cards, PayPal, and bank transfers. How can I help with your payment?", "payment"⟩,
  ⟨"Payment options", "You can pay with Visa, MasterCard, American Express, PayPal, or bank transfer.", "payment"⟩,
  ⟨"How can I pay?", "Multiple payment methods are available, including credit cards and PayPal.", "payment"⟩,
  ⟨"Billing", "I can help with billing questions. What specific payment issue can I assist with?", "payment"⟩,
  ⟨"Tell me about this product", "I\x27d be happy to help with product information. Which product are you interested in?", "product_info"⟩,
  ⟨"Product details", "Let me get you the details on that product. What specific information do you need?", "product_info"⟩,
  ⟨"Specifications", "I can provide product specifications and availability. What product are you asking about?", "product_info"⟩,
  ⟨"Is this in stock?", "Let me check the availability for you. Which product are you interested in?", "product_info"⟩,
  ⟨"How can I contact support?", "You can reach our support team at support@company.com or call 1-800-SUPPORT. Our team is available 24/7!", "contact"⟩,
  ⟨"Phone number", "For immediate assistance, call us at 1-800-SUPPORT or email support@company.com.", "contact"⟩,
  ⟨"Email support", "Our support team is available 24/7. Call 1-800-SUPPORT or email support@company.com.", "contact"⟩,
  ⟨"Speak to someone", "I can help you with most questions, but if you need to speak to a human agent, call 1-800-SUPPORT.", "contact"⟩,
  ⟨"I have a complaint", "I\x27m sorry to hear you\x27re having an issue. Please tell me more about the problem so I can help resolve it.", "complaint"⟩,
  ⟨"This is terrible", "I understand your frustration. Let me help you resolve this issue. What specific problem are you experiencing?", "complaint"⟩,
  ⟨"I\x27m not happy", "I\x27m sorry you\x27re not satisfied. Please share the details of your concern so I can assist you better.", "complaint"⟩,
  ⟨"This is unacceptable", "I apologize for the inconvenience. Let me help you address this issue. What happened?", "complaint"⟩,
  ⟨"Thanks for your help", "You\x27re welcome! Is there anything else I can help you with?", "goodbye"⟩,
  ⟨"Thank you", "You\x27re welcome! Feel free to reach out if you need any more assistance.", "goodbye"⟩,
  ⟨"Bye", "Goodbye! Have a great day!", "goodbye"⟩,
  ⟨"See you later", "See you later! Take care!", "goodbye"⟩]

/-- DatasetIntegrator.intent_mapping (dataset_integration.py:21-32): the
corpus index keeps its own keyword lists, separate from the intent catalog. -/
def intent_mapping : List (String × List String) := [
  ("greeting", ["hello", "hi", "hey", "good morning", "good afternoon", "good evening"]),
  ("goodbye", ["bye", "goodbye", "see you", "farewell", "take care"]),
  ("thanks", ["thank you", "thanks", "appreciate", "grateful"]),
  ("order_status", ["order", "status", "tracking", "shipped", "delivery", "where is my order"]),
  ("shipping", ["shipping", "delivery", "shipping time", "how long", "when will it arrive"]),
  ("returns", ["return", "refund", "exchange", "cancel", "return policy"]),
  ("payment", ["payment", "billing", "charge", "credit card", "payment method", "invoice"]),
  ("product_info", ["product", "specifications", "features", "size", "color", "availability"]),
  ("contact", ["contact", "phone", "email", "support", "help", "speak to someone"]),
  ("complaint", ["complaint", "problem", "issue", "unhappy", "dissatisfied", "angry"])]

/-- Python `self.intent_mapping.get(intent, [])`. -/
def mappingKeywords (intent : String) : List String :=
  ((intent_mapping.find? (fun p => p.1 == intent)).map (fun p => p.2)).getD []

/-- DatasetIntegrator.generate_variations (dataset_integration.py:114-141):
starts from the original text and extends it for the three special intents. -/
def generate_variations (base_input : String) (intent : String) : List String :=
  if intent == "greeting" then
    [base_input, base_input ++ " there", base_input ++ "!",
     "Hey " ++ pyLower base_input, "Good morning " ++ pyLower base_input]
  else if intent == "order_status" then
    [base_input, "Where is " ++ base_input, "Status of " ++ base_input,
     "Track " ++ base_input, "Check " ++ base_input]
  else if intent == "shipping" then
    [base_input, "How long for " ++ base_input, "When will " ++ base_input ++ " arrive",
     "Delivery time for " ++ base_input, "Shipping duration for " ++ base_input]
  else [base_input]

/-- One grouped corpus example of _load_enhanced_responses: input, output and
the derived surface variations. -/
structure EnhExample where
  input : String
  output : String
  variations : List String
deriving DecidableEq

/-- Insert one training example into the per-intent grouping, preserving dict
insertion order, exactly as _load_enhanced_responses
(enhanced_chatbot_with_dataset.py:43-58) does. -/
def addEnhExample (acc : List (String × List EnhExample)) (e : DialogExample) :
    List (String × List EnhExample) :=
  let ex : EnhExample := ⟨e.input, e.output, generate_variations e.input e.intent⟩
  if acc.any (fun p => p.1 == e.intent) then
    acc.map (fun p => if p.1 == e.intent then (p.1, p.2 ++ [ex]) else p)
  else acc ++ [(e.intent, [ex])]

/-- self.enhanced_responses: the training data grouped by intent. -/
def enhanced_responses : List (String × List EnhExample) :=
  sample_dialogs.foldl addEnhExample []

/-- The running best candidate of _find_best_intent_match: intent (None when
nothing has scored yet), confidence, response text. -/
structure Best where
  intent : Option String
  confidence : ℚ
  response : String
deriving DecidableEq

/-- One candidate replacement of _find_best_intent_match: the stored best is
replaced only when the candidate confidence is strictly greater. -/
def upd (b : Best) (cond : Bool) (c : ℚ) (i : String) (r : String) : Best :=
  if cond ∧ b.confidence < c then ⟨some i, c, r⟩ else b

/-- The loop body of _find_best_intent_match for one corpus example
(enhanced_chatbot_with_dataset.py:137-164): exact-substring tier at 0.9,
variation tier at 0.8, keyword-overlap tier at min(0.7, hits * 0.2). -/
def matchStep (user_input intent : String) (b : Best) (ex : EnhExample) : Best :=
  let b1 := upd b (pyIn user_input (pyLower ex.input)) (9/10) intent ex.output
  let b2 := ex.variations.foldl
    (fun acc v => upd acc (pyIn user_input (pyLower v)) (8/10) intent ex.output) b1
  let hits := ((mappingKeywords intent).filter (fun k => pyIn k user_input)).length
  upd b2 (decide (0 < hits)) (min (7/10) ((hits : ℚ) * (2/10))) intent ex.output

/-- _find_best_intent_match (enhanced_chatbot_with_dataset.py:130-166). -/
def find_best_intent_match (user_input : String) : Best :=
  enhanced_responses.foldl (fun b p => p.2.foldl (matchStep user_input p.1) b)
    ⟨none, 0, ""⟩

/-- One record of the baseline conversation history (timestamp omitted: it is
wall-clock data outside the embedding). -/
structure ConvRecord where
  session_id : String
  user_input : String
  intent : String
  response : String
  confidence : ℚ
deriving DecidableEq

/-- The analytics dictionary plus conversation history of
CustomerSupportChatbot (chatbot_core.py:21-29). -/
structure CoreAnalytics where
  total_requests : Nat
  successful_responses : Nat
  failed_responses : Nat
  intent_counts : List (String × Nat)
  response_times : List ℚ
  conversation_history : List ConvRecord
deriving DecidableEq

/-- The zero analytics state created by the constructor and by clear_history. -/
def coreInit : CoreAnalytics := ⟨0, 0, 0, [], [], []⟩

/-- The response dictionary of _create_response (timestamp omitted). -/
structure CoreResponse where
  text : String
  intent : String
  confidence : ℚ
deriving DecidableEq

/-- _create_response (chatbot_core.py:206-214). -/
def create_response (text intent : String) (confidence : ℚ) : CoreResponse :=
  ⟨text, intent, confidence⟩

/-- Python `d[i] = d.get(i, 0) + 1` on the intent-count dictionary. -/
def bumpIntent (m : List (String × Nat)) (i : String) : List (String × Nat) :=
  if m.any (fun p => p.1 == i) then
    m.map (fun p => if p.1 == i then (p.1, p.2 + 1) else p)
  else m ++ [(i, 1)]

/-- The fallback pool of _get_fallback_response (chatbot_core.py:195-204). -/
def fallback_responses : List String := [
  "I\x27m sorry, I didn\x27t quite understand that. Could you please rephrase your question?",
  "I\x27m not sure I can help with that specific question. Could you try asking in a different way?",
  "I don\x27t have information about that. Let me connect you with a human agent who can help better.",
  "That\x27s an interesting question! I might not have the exact answer, but I can connect you with our support team.",
  "I\x27m still learning! Could you try asking about order status, shipping, returns, or product information?"]

/-- _generate_response (chatbot_core.py:187-193): a random choice from the
matched intent\x27s responses, or from the fallback pool when the intent (such
as the "fallback" sentinel) is not in the catalog. -/
def generate_response (intent : String) (k : Nat) : String :=
  match intents.find? (fun p => p.1 == intent) with
  | some p => pyChoice p.2.responses k
  | none => pyChoice fallback_responses k

/-- _record_interaction (chatbot_core.py:216-238): bumps total and successful
counters together, counts the intent, appends the latency sample (0 here) and
appends the conversation record. -/
def record_interaction (st : CoreAnalytics) (user_input intent response : String)
    (confidence : ℚ) (session_id : Option String) : CoreAnalytics :=
  { st with
    total_requests := st.total_requests + 1
    successful_responses := st.successful_responses + 1
    response_times := st.response_times ++ [0]
    intent_counts := bumpIntent st.intent_counts intent
    conversation_history := st.conversation_history ++
      [⟨session_id.getD "default", user_input, intent, response, confidence⟩] }

/-- process_message of the baseline chatbot (chatbot_core.py:137-159), with the
random response index `k` explicit. Empty or whitespace-only input returns the
fixed prompt without touching the analytics state. -/
def core_process_message (st : CoreAnalytics) (user_input : String)
    (session_id : Option String) (k : Nat) : CoreResponse × CoreAnalytics :=
  if user_input.trim.isEmpty then
    (create_response "Please enter a message so I can help you!" "empty_input" 0, st)
  else
    let r := find_best_intent user_input
    let response_text := generate_response r.1 k
    (create_response response_text r.1 r.2,
     record_interaction st user_input r.1 response_text r.2 session_id)

/-- One call against the baseline chatbot. `message` is a process_message
call; `internalError` models the except-branch of process_message
(chatbot_core.py:161-164), which only increments failed_responses; `clear` is
clear_history (chatbot_core.py:259-269). -/
inductive CoreEvent where
  | message (input : String) (session_id : Option String) (k : Nat)
  | internalError
  | clear
deriving DecidableEq

/-- State transition of the baseline analytics under one call. -/
def core_step (st : CoreAnalytics) : CoreEvent → CoreAnalytics
  | .message input sid k => (core_process_message st input sid k).2
  | .internalError => { st with failed_responses := st.failed_responses + 1 }
  | .clear => coreInit

/-- The success_rate reported by get_analytics (chatbot_core.py:240-248), as a
rational rather than a formatted percentage string. -/
def success_rate (st : CoreAnalytics) : ℚ :=
  if 0 < st.total_requests then
    ((st.successful_responses : ℚ) / (st.total_requests : ℚ)) * 100
  else 0

/-- The recent_conversations field of get_analytics: Python history[-10:]. -/
def recent_conversations (h : List ConvRecord) : List ConvRecord :=
  h.drop (h.length - 10)

/-- The result dictionary of _process_with_enhanced_dataset. -/
structure EnhResult where
  text : String
  intent : Option String
  confidence : ℚ
deriving DecidableEq

/-- Python truthiness of the value returned by _find_best_intent_match: that
value is a 3-tuple, and a non-empty tuple is truthy whatever its components,
so this test is constantly true. -/
def tripleTruthy (_ : Best) : Bool := true

/-- _process_with_enhanced_dataset (enhanced_chatbot_with_dataset.py:112-128).
Because `tripleTruthy` is constantly true, the else-branch (the fallback call
to the core chatbot on line 128) is unreachable; since that is the only call
into the core chatbot, its state stays `coreInit` forever, which is what the
dead branch is given here. -/
def process_with_enhanced_dataset (k : Nat) (user_input : String) : EnhResult :=
  let best := find_best_intent_match (pyLower user_input)
  if tripleTruthy best then
    ⟨best.response, best.intent, best.confidence⟩
  else
    let r := (core_process_message coreInit user_input none k).1
    ⟨r.text, some r.intent, r.confidence⟩

/-- Outcome of the underlying remote chat-completion call of the OpenAI
adapter: either a reply text or an exception. -/
inductive GenOutcome where
  | ok (text : String)
  | exn
deriving DecidableEq

/-- The response dictionary of OpenAIChatbot. -/
structure OpenAIResp where
  text : String
  intent : String
  confidence : ℚ
  model : String
deriving DecidableEq

/-- The static pool of _get_fallback_response (openai_chatbot.py:101-117). -/
def openai_fallback_pool : List String := [
  "I\x27m here to help! I can assist with order status, shipping, returns, payment, and product information.",
  "I\x27d be happy to help you with your inquiry. What specific information do you need?",
  "I can help with various customer support topics. How can I assist you today?",
  "I\x27m ready to help! Please let me know what you need assistance with."]

/-- _get_fallback_response of OpenAIChatbot: intent "fallback", confidence
0.5, model "fallback". -/
def get_fallback_response (k : Nat) : OpenAIResp :=
  ⟨pyChoice openai_fallback_pool k, "fallback", 1/2, "fallback"⟩

/-- get_openai_response (openai_chatbot.py:36-84). `client` says whether the
OpenAI client was configured. When the client is missing, or the remote call
raises, the function returns the static fallback response: no exception ever
leaves this function. -/
def get_openai_response (client : Bool) (outcome : GenOutcome) (k : Nat) :
    OpenAIResp :=
  if client then
    match outcome with
    | .ok t => ⟨t, "openai_response", 95/100, "gpt-3.5-turbo"⟩
    | .exn => get_fallback_response k
  else get_fallback_response k

/-- One record of the enhanced conversation history (timestamp omitted). -/
structure EnhHistRecord where
  user_id : Option String
  user_input : String
  bot_response : String
  source : String
  confidence : ℚ
deriving DecidableEq

/-- _add_to_history (enhanced_chatbot_with_dataset.py:168-181): append, then
keep only the last 100 records. -/
def add_to_history (h : List EnhHistRecord) (r : EnhHistRecord) :
    List EnhHistRecord :=
  let h2 := h ++ [r]
  if 100 < h2.length then h2.drop (h2.length - 100) else h2

/-- The analytics dictionary of EnhancedChatbotWithDataset
(enhanced_chatbot_with_dataset.py:31-39); intent_distribution is initialized
empty and never written, so it is omitted. -/
structure EnhAnalytics where
  total_requests : Nat
  openai_requests : Nat
  core_requests : Nat
  response_times : List ℚ
  conversation_history : List EnhHistRecord
deriving DecidableEq

/-- The zero enhanced analytics state of the constructor. -/
def enhInit : EnhAnalytics := ⟨0, 0, 0, [], []⟩

/-- The result dictionary of the enhanced process_message. -/
structure EnhFullResult where
  text : String
  intent : Option String
  confidence : ℚ
  source : String
  model : String
deriving DecidableEq

/-- process_message of EnhancedChatbotWithDataset
(enhanced_chatbot_with_dataset.py:60-110). `client` says whether the OpenAI
client was configured, `outcome` is the remote call outcome, `k` the random
index. get_openai_response returns normally even when the remote call raises,
so the except-branch around the OpenAI block never fires. -/
def enh_process_message (st : EnhAnalytics) (user_input : String)
    (user_id : Option String) (use_openai client : Bool) (outcome : GenOutcome)
    (k : Nat) : EnhFullResult × EnhAnalytics :=
  let st1 : EnhAnalytics := { st with total_requests := st.total_requests + 1 }
  if use_openai ∧ client then
    let r := get_openai_response client outcome k
    let st2 : EnhAnalytics := { st1 with
      openai_requests := st1.openai_requests + 1
      conversation_history := add_to_history st1.conversation_history
        ⟨user_id, user_input, r.text, "openai", r.confidence⟩
      response_times := st1.response_times ++ [0] }
    (⟨r.text, some r.intent, r.confidence, "openai", r.model⟩, st2)
  else
    let resp := process_with_enhanced_dataset k user_input
    let st2 : EnhAnalytics := { st1 with
      core_requests := st1.core_requests + 1
      conversation_history := add_to_history st1.conversation_history
        ⟨user_id, user_input, resp.text, "core", resp.confidence⟩
      response_times := st1.response_times ++ [0] }
    (⟨resp.text, resp.intent, resp.confidence, "core_enhanced", "dataset_trained"⟩, st2)

/-- One call against the enhanced chatbot, bundling all process_message
arguments and the remote outcome. -/
structure EnhEvent where
  input : String
  user_id : Option String
  use_openai : Bool
  client : Bool
  outcome : GenOutcome
  k : Nat
deriving DecidableEq

/-- State transition of the enhanced analytics under one call. -/
def enh_step (st : EnhAnalytics) (e : EnhEvent) : EnhAnalytics :=
  (enh_process_message st e.input e.user_id e.use_openai e.client e.outcome e.k).2

/-- Does some corpus example\x27s input contain the given (lowered) text as a
substring, i.e. does the exact-substring tier fire anywhere. -/
def hasExact (u : String) : Bool :=
  enhanced_responses.any (fun p => p.2.any (fun ex => pyIn u (pyLower ex.input)))

/-- Does some generated variation contain the given (lowered) text as a
substring, i.e. does the variation tier fire anywhere. -/
def hasVariation (u : String) : Bool :=
  enhanced_responses.any (fun p => p.2.any (fun ex =>
    ex.variations.any (fun v => pyIn u (pyLower v))))

/-- Does any corpus-index keyword of any intent with corpus examples occur in
the given text, i.e. does the keyword-overlap tier fire anywhere. -/
def hasKeywordHit (u : String) : Bool :=
  enhanced_responses.any (fun p => (mappingKeywords p.1).any (fun k => pyIn k u))

/-- A concrete history record, used to instantiate window statements. -/
def histRec0 : EnhHistRecord := ⟨none, "", "", "", 0⟩

/-! Lemmas about the strictly-greater-than candidate replacement `upd` and
about folds of confidence-monotone steps. -/

lemma upd_conf_ge (b : Best) (cond : Bool) (c : ℚ) (i r : String) :
    b.confidence ≤ (upd b cond c i r).confidence := by
  unfold upd
  split
  next h => exact le_of_lt h.2
  next => exact le_refl _

lemma upd_eq_of_false {cond : Bool} (b : Best) (c : ℚ) (i r : String)
    (h : cond = false) : upd b cond c i r = b := by
  simp [upd, h]

lemma upd_conf_le {b : Best} {c m : ℚ} (cond : Bool) (i r : String)
    (hb : b.confidence ≤ m) (hc : c ≤ m) :
    (upd b cond c i r).confidence ≤ m := by
  unfold upd
  split
  next => exact hc
  next => exact hb

lemma upd_reach {cond : Bool} (b : Best) (c : ℚ) (i r : String)
    (h : cond = true) : c ≤ (upd b cond c i r).confidence := by
  unfold upd
  split
  next => exact le_refl _
  next hh =>
    have hnot : ¬ b.confidence < c := fun hlt => hh ⟨h, hlt⟩
    exact le_of_not_lt hnot

lemma upd_eq_or_lt (b : Best) (cond : Bool) (c : ℚ) (i r : String) :
    upd b cond c i r = b ∨ b.confidence < (upd b cond c i r).confidence := by
  unfold upd
  split
  next h => right; exact h.2
  next => left; rfl

lemma foldl_conf_mono {α : Type} (step : Best → α → Best)
    (hs : ∀ b a, b.confidence ≤ (step b a).confidence) :
    ∀ (l : List α) (b : Best), b.confidence ≤ (l.foldl step b).confidence := by
  intro l
  induction l with
  | nil => intro b; exact le_refl _
  | cons a t ih =>
      intro b
      rw [List.foldl_cons]
      exact le_trans (hs b a) (ih (step b a))

lemma foldl_conf_le {α : Type} (step : Best → α → Best) (m : ℚ) :
    ∀ (l : List α) (b : Best),
      (∀ b' a, a ∈ l → b'.confidence ≤ m → (step b' a).confidence ≤ m) →
      b.confidence ≤ m → (l.foldl step b).confidence ≤ m := by
  intro l
  induction l with
  | nil => intro b _ hb; exact hb
  | cons a t ih =>
      intro b h hb
      rw [List.foldl_cons]
      exact ih (step b a) (fun b' x hx hb' => h b' x (List.mem_cons_of_mem a hx) hb')
        (h b a (List.mem_cons_self a t) hb)

lemma foldl_conf_reach {α : Type} (step : Best → α → Best)
    (mono : ∀ b a, b.confidence ≤ (step b a).confidence) (v : ℚ) :
    ∀ (l : List α) (a : α), a ∈ l → (∀ b, v ≤ (step b a).confidence) →
      ∀ b, v ≤ (l.foldl step b).confidence := by
  intro l
  induction l with
  | nil => intro a ha; exact absurd ha (List.not_mem_nil a)
  | cons x t ih =>
      intro a ha hv b
      rw [List.foldl_cons]
      rcases List.mem_cons.mp ha with h | h
      · subst h
        exact le_trans (hv b) (foldl_conf_mono step mono t (step b a))
      · exact ih a h hv (step b x)

lemma foldl_eq_or_lt {α : Type} (step : Best → α → Best)
    (mono : ∀ b a, b.confidence ≤ (step b a).confidence) :
    ∀ (l : List α) (b : Best),
      (∀ b' a, a ∈ l → step b' a = b' ∨ b'.confidence < (step b' a).confidence) →
      l.foldl step b = b ∨ b.confidence < (l.foldl step b).confidence := by
  intro l
  induction l with
  | nil => intro b _; left; rfl
  | cons a t ih =>
      intro b h
      rw [List.foldl_cons]
      rcases h b a (List.mem_cons_self a t) with he | hlt
      · rw [he]
        exact ih b (fun b' x hx => h b' x (List.mem_cons_of_mem a hx))
      · right
        exact lt_of_lt_of_le hlt (foldl_conf_mono step mono t (step b a))

/-! Lemmas about one loop body of the corpus-enhanced matcher. -/

lemma matchStep_mono (u i : String) (b : Best) (ex : EnhExample) :
    b.confidence ≤ (matchStep u i b ex).confidence := by
  simp only [matchStep]
  have h1 : b.confidence ≤
      (upd b (pyIn u (pyLower ex.input)) (9/10) i ex.output).confidence :=
    upd_conf_ge b _ _ _ _
  have h2 : (upd b (pyIn u (pyLower ex.input)) (9/10) i ex.output).confidence ≤
      (ex.variations.foldl
        (fun acc v => upd acc (pyIn u (pyLower v)) (8/10) i ex.output)
        (upd b (pyIn u (pyLower ex.input)) (9/10) i ex.output)).confidence :=
    foldl_conf_mono _ (fun b' v => upd_conf_ge b' _ _ _ _) ex.variations _
  exact le_trans h1 (le_trans h2 (upd_conf_ge _ _ _ _ _))

lemma matchStep_le9 (u i : String) (b : Best) (ex : EnhExample)
    (hb : b.confidence ≤ 9/10) : (matchStep u i b ex).confidence ≤ 9/10 := by
  simp only [matchStep]
  refine upd_conf_le _ _ _ ?_ (le_trans (min_le_left _ _) (by norm_num))
  exact foldl_conf_le _ (9/10) ex.variations _
    (fun b' v _ hb' => upd_conf_le _ _ _ hb' (by norm_num))
    (upd_conf_le _ _ _ hb (le_refl _))

lemma matchStep_reach_exact (u i : String) (b : Best) (ex : EnhExample)
    (h : pyIn u (pyLower ex.input) = true) :
    9/10 ≤ (matchStep u i b ex).confidence := by
  simp only [matchStep]
  refine le_trans ?_ (upd_conf_ge _ _ _ _ _)
  refine le_trans ?_
    (foldl_conf_mono _ (fun b' v => upd_conf_ge b' _ _ _ _) ex.variations _)
  exact upd_reach b _ _ _ h

lemma matchStep_reach_var (u i : String) (b : Best) (ex : EnhExample) (v : String)
    (hv : v ∈ ex.variations) (h : pyIn u (pyLower v) = true) :
    8/10 ≤ (matchStep u i b ex).confidence := by
  simp only [matchStep]
  refine le_trans ?_ (upd_conf_ge _ _ _ _ _)
  exact foldl_conf_reach
    (fun acc v' => upd acc (pyIn u (pyLower v')) (8/10) i ex.output)
    (fun b' v' => upd_conf_ge b' _ _ _ _) (8/10)
    ex.variations v hv (fun b' => upd_reach b' _ _ _ h) _

lemma matchStep_le8 (u i : String) (b : Best) (ex : EnhExample)
    (hex : pyIn u (pyLower ex.input) = false)
    (hb : b.confidence ≤ 8/10) : (matchStep u i b ex).confidence ≤ 8/10 := by
  simp only [matchStep]
  refine upd_conf_le _ _ _ ?_ (le_trans (min_le_left _ _) (by norm_num))
  refine foldl_conf_le _ (8/10) ex.variations _
    (fun b' v _ hb' => upd_conf_le _ _ _ hb' (le_refl _)) ?_
  rw [upd_eq_of_false b _ _ _ hex]
  exact hb

lemma matchStep_le7 (u i : String) (b : Best) (ex : EnhExample)
    (hex : pyIn u (pyLower ex.input) = false)
    (hvar : ∀ v ∈ ex.variations, pyIn u (pyLower v) = false)
    (hb : b.confidence ≤ 7/10) : (matchStep u i b ex).confidence ≤ 7/10 := by
  simp only [matchStep]
  refine upd_conf_le _ _ _ ?_ (min_le_left _ _)
  refine foldl_conf_le _ (7/10) ex.variations _ ?_ ?_
  · intro b' v hv hb'
    rw [upd_eq_of_false b' _ _ _ (hvar v hv)]
    exact hb'
  · rw [upd_eq_of_false b _ _ _ hex]
    exact hb

lemma matchStep_eq_or_lt (u i : String) (b : Best) (ex : EnhExample) :
    matchStep u i b ex = b ∨ b.confidence < (matchStep u i b ex).confidence := by
  simp only [matchStep]
  rcases upd_eq_or_lt (ex.variations.foldl
      (fun acc v => upd acc (pyIn u (pyLower v)) (8/10) i ex.output)
      (upd b (pyIn u (pyLower ex.input)) (9/10) i ex.output)) _ _ _ _ with h3 | h3
  · rw [h3]
    rcases foldl_eq_or_lt _ (fun b' v => upd_conf_ge b' _ _ _ _) ex.variations
        (upd b (pyIn u (pyLower ex.input)) (9/10) i ex.output)
        (fun b' v _ => upd_eq_or_lt b' _ _ _ _) with h2 | h2
    · rw [h2]
      exact upd_eq_or_lt b _ _ _ _
    · right
      exact lt_of_le_of_lt (upd_conf_ge b _ _ _ _) h2
  · right
    have h4 : b.confidence ≤
        (ex.variations.foldl
          (fun acc v => upd acc (pyIn u (pyLower v)) (8/10) i ex.output)
          (upd b (pyIn u (pyLower ex.input)) (9/10) i ex.output)).confidence :=
      le_trans (upd_conf_ge b _ _ _ _)
        (foldl_conf_mono _ (fun b' v => upd_conf_ge b' _ _ _ _) ex.variations _)
    exact lt_of_le_of_lt h4 h3

/-! Lemmas about the whole corpus-enhanced matcher. -/

lemma group_mono (u : String) (b : Best) (p : String × List EnhExample) :
    b.confidence ≤ (p.2.foldl (matchStep u p.1) b).confidence :=
  foldl_conf_mono _ (matchStep_mono u p.1) p.2 b

lemma fbim_nonneg (u : String) : 0 ≤ (find_best_intent_match u).confidence := by
  simp only [find_best_intent_match]
  exact foldl_conf_mono
    (fun (b : Best) (p : String × List EnhExample) => p.2.foldl (matchStep u p.1) b)
    (fun b p => group_mono u b p) enhanced_responses ⟨none, 0, ""⟩

lemma fbim_le9 (u : String) : (find_best_intent_match u).confidence ≤ 9/10 := by
  simp only [find_best_intent_match]
  refine foldl_conf_le _ (9/10) enhanced_responses _ ?_ ?_
  · intro b p _ hb
    exact foldl_conf_le _ (9/10) p.2 b
      (fun b' ex _ hb' => matchStep_le9 u p.1 b' ex hb') hb
  · show (0:ℚ) ≤ 9/10
    norm_num

lemma hasExact_iff (u : String) : hasExact u = true ↔
    ∃ p ∈ enhanced_responses, ∃ ex ∈ p.2, pyIn u (pyLower ex.input) = true := by
  simp [hasExact, List.any_eq_true]

lemma hasVariation_iff (u : String) : hasVariation u = true ↔
    ∃ p ∈ enhanced_responses, ∃ ex ∈ p.2, ∃ v ∈ ex.variations,
      pyIn u (pyLower v) = true := by
  simp [hasVariation, List.any_eq_true]

lemma fbim_exact (u : String) (h : hasExact u = true) :
    (find_best_intent_match u).confidence = 9/10 := by
  obtain ⟨p, hp, ex, hex, hm⟩ := (hasExact_iff u).mp h
  refine le_antisymm (fbim_le9 u) ?_
  simp only [find_best_intent_match]
  refine foldl_conf_reach
    (fun (b : Best) (q : String × List EnhExample) => q.2.foldl (matchStep u q.1) b)
    (fun b q => group_mono u b q) (9/10) enhanced_responses p hp ?_ _
  intro b
  exact foldl_conf_reach _ (matchStep_mono u p.1) (9/10) p.2 ex hex
    (fun b' => matchStep_reach_exact u p.1 b' ex hm) b

lemma fbim_var (u : String) (h : hasVariation u = true) :
    8/10 ≤ (find_best_intent_match u).confidence := by
  obtain ⟨p, hp, ex, hex, v, hv, hm⟩ := (hasVariation_iff u).mp h
  simp only [find_best_intent_match]
  refine foldl_conf_reach
    (fun (b : Best) (q : String × List EnhExample) => q.2.foldl (matchStep u q.1) b)
    (fun b q => group_mono u b q) (8/10) enhanced_responses p hp ?_ _
  intro b
  exact foldl_conf_reach _ (matchStep_mono u p.1) (8/10) p.2 ex hex
    (fun b' => matchStep_reach_var u p.1 b' ex v hv hm) b

lemma bool_eq_true_of_ne_false {x : Bool} (h : ¬ x = false) : x = true := by
  cases x with
  | false => exact absurd rfl h
  | true => rfl

lemma hasExact_false_pointwise (u : String) (h : hasExact u = false) :
    ∀ p ∈ enhanced_responses, ∀ ex ∈ p.2, pyIn u (pyLower ex.input) = false := by
  intro p hp ex hex
  by_contra hc
  have ht : hasExact u = true :=
    (hasExact_iff u).mpr ⟨p, hp, ex, hex, bool_eq_true_of_ne_false hc⟩
  rw [h] at ht
  exact Bool.false_ne_true ht

lemma hasVariation_false_pointwise (u : String) (h : hasVariation u = false) :
    ∀ p ∈ enhanced_responses, ∀ ex ∈ p.2, ∀ v ∈ ex.variations,
      pyIn u (pyLower v) = false := by
  intro p hp ex hex v hv
  by_contra hc
  have ht : hasVariation u = true :=
    (hasVariation_iff u).mpr ⟨p, hp, ex, hex, v, hv, bool_eq_true_of_ne_false hc⟩
  rw [h] at ht
  exact Bool.false_ne_true ht

lemma fbim_le8 (u : String) (h : hasExact u = false) :
    (find_best_intent_match u).confidence ≤ 8/10 := by
  have hAll := hasExact_false_pointwise u h
  simp only [find_best_intent_match]
  refine foldl_conf_le _ (8/10) enhanced_responses _ ?_ ?_
  · intro b p hp hb
    exact foldl_conf_le _ (8/10) p.2 b
      (fun b' ex hex hb' => matchStep_le8 u p.1 b' ex (hAll p hp ex hex) hb') hb
  · show (0:ℚ) ≤ 8/10
    norm_num

lemma fbim_le7 (u : String) (hE : hasExact u = false) (hV : hasVariation u = false) :
    (find_best_intent_match u).confidence ≤ 7/10 := by
  have hAllE := hasExact_false_pointwise u hE
  have hAllV := hasVariation_false_pointwise u hV
  simp only [find_best_intent_match]
  refine foldl_conf_le _ (7/10) enhanced_responses _ ?_ ?_
  · intro b p hp hb
    exact foldl_conf_le _ (7/10) p.2 b
      (fun b' ex hex hb' =>
        matchStep_le7 u p.1 b' ex (hAllE p hp ex hex)
          (fun v hv => hAllV p hp ex hex v hv) hb') hb
  · show (0:ℚ) ≤ 7/10
    norm_num

/-- C4: the Corpus-Enhanced Matcher evaluates, for every corpus example, the
exact-substring tier at confidence 0.9, the variation tier at 0.8, and the
keyword-overlap tier at min(0.7, hits * 0.2) (these three tiers are the loop
body `matchStep`), replacing the best candidate only on strictly greater
confidence so that the first-seen candidate wins ties; consequently an input
firing the exact-substring tier resolves at exactly 0.9 (the overall maximum),
a variation-tier input resolves at at least 0.8, an input with no exact match
stays at or below 0.8, and an input with neither exact nor variation match
stays at or below 0.7. -/
theorem C4_tier_ordering :
    (∀ u i b ex, matchStep u i b ex = b ∨
       b.confidence < (matchStep u i b ex).confidence) ∧
    (∀ u, (find_best_intent_match u).confidence ≤ 9/10) ∧
    (∀ u, hasExact u = true → (find_best_intent_match u).confidence = 9/10) ∧
    (∀ u, hasVariation u = true → 8/10 ≤ (find_best_intent_match u).confidence) ∧
    (∀ u, hasExact u = false → (find_best_intent_match u).confidence ≤ 8/10) ∧
    (∀ u, hasExact u = false → hasVariation u = false →
       (find_best_intent_match u).confidence ≤ 7/10) :=
  ⟨matchStep_eq_or_lt, fbim_le9, fbim_exact, fbim_var, fbim_le8, fbim_le7⟩

/-- Witness for C4: the input "hello" fires the exact-substring tier (it is a
substring of the stored example "Hello" after lowering) and resolves at
confidence 0.9. -/
theorem C4_tier_ordering_witness :
    (find_best_intent_match "hello").confidence = 9/10 :=
  C4_tier_ordering.2.2.1 "hello" (by with_unfolding_all decide)

/-! Lemmas about the baseline keyword classifier. -/

lemma keywordStep_fst_le (lower : String) (acc : Nat × String)
    (p : String × IntentData) : acc.1 ≤ (keywordStep lower acc p).1 := by
  unfold keywordStep
  split
  next h => exact le_of_lt h
  next => exact le_refl _

lemma keywordFold_fst_mono (lower : String) :
    ∀ (l : List (String × IntentData)) (acc : Nat × String),
      acc.1 ≤ (l.foldl (keywordStep lower) acc).1 := by
  intro l
  induction l with
  | nil => intro acc; exact le_refl _
  | cons a t ih =>
      intro acc
      rw [List.foldl_cons]
      exact le_trans (keywordStep_fst_le lower acc a) (ih (keywordStep lower acc a))

lemma keywordFold_ge_score (lower : String) :
    ∀ (l : List (String × IntentData)) (p : String × IntentData), p ∈ l →
      ∀ acc, scoreOf lower p ≤ (l.foldl (keywordStep lower) acc).1 := by
  intro l
  induction l with
  | nil => intro p hp; exact absurd hp (List.not_mem_nil p)
  | cons a t ih =>
      intro p hp acc
      rw [List.foldl_cons]
      rcases List.mem_cons.mp hp with h | h
      · subst h
        refine le_trans ?_ (keywordFold_fst_mono lower t _)
        unfold keywordStep
        split
        next => exact le_refl _
        next hlt => exact le_of_not_lt hlt
      · exact ih p h _

lemma keywordFold_fallback (lower : String) :
    ∀ (l : List (String × IntentData)) (acc : Nat × String),
      (acc.1 = 0 → acc.2 = "fallback") →
      ((l.foldl (keywordStep lower) acc).1 = 0 →
        (l.foldl (keywordStep lower) acc).2 = "fallback") := by
  intro l
  induction l with
  | nil => intro acc h; exact h
  | cons a t ih =>
      intro acc h
      rw [List.foldl_cons]
      refine ih (keywordStep lower acc a) ?_
      unfold keywordStep
      split
      next hlt => intro h0; omega
      next => exact h

lemma keywordFold_attain (lower : String) :
    ∀ (l : List (String × IntentData)) (acc : Nat × String),
      (∀ x ∈ l, x ∈ intents) →
      (0 < acc.1 → ∃ p ∈ intents, p.1 = acc.2 ∧ scoreOf lower p = acc.1) →
      (0 < (l.foldl (keywordStep lower) acc).1 →
        ∃ p ∈ intents, p.1 = (l.foldl (keywordStep lower) acc).2 ∧
          scoreOf lower p = (l.foldl (keywordStep lower) acc).1) := by
  intro l
  induction l with
  | nil => intro acc _ h; exact h
  | cons a t ih =>
      intro acc hsub h
      rw [List.foldl_cons]
      refine ih (keywordStep lower acc a)
        (fun x hx => hsub x (List.mem_cons_of_mem a hx)) ?_
      unfold keywordStep
      split
      next => exact fun _ => ⟨a, hsub a (List.mem_cons_self a t), rfl, rfl⟩
      next => exact h

/-- C5: the Keyword Classifier lowercases the input and scores each intent by
how many of its keyword phrases occur as substrings of the lowered text
(`scoreOf`); the kept score is an upper bound of every intent\x27s score and
the scoring step never replaces the kept intent on a merely equal score
(first-encountered wins ties); when the best score is 0 the result is the
sentinel intent "fallback" with confidence 0, when it is positive the returned
intent attains the best score and the confidence is min(score / 3, 1), so
score 1 gives 1/3 and score at least 3 saturates at 1. The classifier is a
total function, so it always returns a result. -/
theorem C5_keyword_classifier :
    (∀ u p, p ∈ intents → scoreOf (pyLower u) p ≤ (keyword_best u).1) ∧
    (∀ u s i p, scoreOf (pyLower u) p ≤ s →
       keywordStep (pyLower u) (s, i) p = (s, i)) ∧
    (∀ u, (keyword_best u).1 = 0 → find_best_intent u = ("fallback", 0)) ∧
    (∀ u, 0 < (keyword_best u).1 → ∃ p ∈ intents, p.1 = (keyword_best u).2 ∧
       scoreOf (pyLower u) p = (keyword_best u).1) ∧
    (∀ u, (find_best_intent u).2 =
       if (keyword_best u).1 > 0 then min (((keyword_best u).1 : ℚ) / 3) 1 else 0) ∧
    (∀ u, (keyword_best u).1 = 1 → (find_best_intent u).2 = 1/3) ∧
    (∀ u, 3 ≤ (keyword_best u).1 → (find_best_intent u).2 = 1) := by
  refine ⟨?_, ?_, ?_, ?_, ?_, ?_, ?_⟩
  · intro u p hp
    exact keywordFold_ge_score (pyLower u) intents p hp (0, "fallback")
  · intro u s i p hle
    unfold keywordStep
    rw [if_neg]
    exact fun hlt => absurd hle (not_le_of_lt hlt)
  · intro u h0
    have h2 : (keyword_best u).2 = "fallback" :=
      keywordFold_fallback (pyLower u) intents (0, "fallback") (fun _ => rfl) h0
    have heq : find_best_intent u =
        ((keyword_best u).2,
         if (keyword_best u).1 > 0 then min (((keyword_best u).1 : ℚ) / 3) 1 else 0) :=
      rfl
    rw [heq, h2, h0]
    norm_num
  · intro u hpos
    exact keywordFold_attain (pyLower u) intents (0, "fallback")
      (fun x hx => hx) (fun h => absurd h (by omega)) hpos
  · intro u
    rfl
  · intro u h1
    have heq : (find_best_intent u).2 =
        if (keyword_best u).1 > 0 then min (((keyword_best u).1 : ℚ) / 3) 1 else 0 :=
      rfl
    rw [heq, h1]
    norm_num
  · intro u h3
    have heq : (find_best_intent u).2 =
        if (keyword_best u).1 > 0 then min (((keyword_best u).1 : ℚ) / 3) 1 else 0 :=
      rfl
    rw [heq, if_pos (by omega)]
    refine min_eq_right ?_
    rw [le_div_iff₀ (by norm_num : (0:ℚ) < 3), one_mul]
    exact_mod_cast h3

/-- Witness for C5: the input "hi" hits exactly one greeting keyword and no
other intent scores, so the classifier returns confidence 1/3. -/
theorem C5_keyword_classifier_witness : (find_best_intent "hi").2 = 1/3 :=
  C5_keyword_classifier.2.2.2.2.2.1 "hi" (by with_unfolding_all decide)

/-! Lemmas about the baseline analytics state machine. -/

lemma core_pm_state (st : CoreAnalytics) (u : String) (sid : Option String)
    (k : Nat) :
    (core_process_message st u sid k).2 = st ∨
    ((core_process_message st u sid k).2.total_requests = st.total_requests + 1 ∧
     (core_process_message st u sid k).2.successful_responses =
       st.successful_responses + 1 ∧
     (core_process_message st u sid k).2.failed_responses = st.failed_responses) := by
  unfold core_process_message
  split
  · left; rfl
  · right
    simp [record_interaction]

lemma core_step_pres (st : CoreAnalytics) (e : CoreEvent)
    (h : st.total_requests = st.successful_responses) :
    (core_step st e).total_requests = (core_step st e).successful_responses := by
  cases e with
  | message input sid k =>
      show (core_process_message st input sid k).2.total_requests =
        (core_process_message st input sid k).2.successful_responses
      rcases core_pm_state st input sid k with he | ⟨h1, h2, _⟩
      · rw [he]; exact h
      · rw [h1, h2, h]
  | internalError => exact h
  | clear => rfl

lemma core_inv (evs : List CoreEvent) : ∀ st : CoreAnalytics,
    st.total_requests = st.successful_responses →
    (evs.foldl core_step st).total_requests =
      (evs.foldl core_step st).successful_responses := by
  induction evs with
  | nil => intro st h; exact h
  | cons e t ih =>
      intro st h
      rw [List.foldl_cons]
      exact ih _ (core_step_pres st e h)

/-! Lemmas about the enhanced analytics state machine. -/

lemma enh_step_counts (st : EnhAnalytics) (e : EnhEvent) :
    (enh_step st e).total_requests = st.total_requests + 1 ∧
    (enh_step st e).openai_requests + (enh_step st e).core_requests =
      st.openai_requests + st.core_requests + 1 := by
  simp only [enh_step, enh_process_message]
  split
  · constructor
    · simp
    · simp
      omega
  · constructor
    · simp
    · simp
      omega

lemma enh_inv (evs : List EnhEvent) : ∀ st : EnhAnalytics,
    st.total_requests = st.openai_requests + st.core_requests →
    (evs.foldl enh_step st).total_requests =
      (evs.foldl enh_step st).openai_requests +
      (evs.foldl enh_step st).core_requests := by
  induction evs with
  | nil => intro st h; exact h
  | cons e t ih =>
      intro st h
      rw [List.foldl_cons]
      refine ih _ ?_
      obtain ⟨h1, h2⟩ := enh_step_counts st e
      omega

/-- C2 (amended): for empty or whitespace-only input, the baseline
process_message returns the fixed prompt-for-input text with the sentinel
intent "empty_input" and confidence 0.0, and leaves the analytics state
(hence the total and success counters) untouched. The enhanced entry point,
by contrast, performs no empty-input check at all (see the counterexample
theorem). -/
theorem C2_empty_input_amended (st : CoreAnalytics) (s : String)
    (sid : Option String) (k : Nat) (h : s.trim.isEmpty = true) :
    core_process_message st s sid k =
      (create_response "Please enter a message so I can help you!" "empty_input" 0,
       st) := by
  unfold core_process_message
  rw [if_pos h]

/-- Witness for the amended C2: the whitespace-only input "   " returns the
fixed prompt and leaves the initial analytics state unchanged. -/
theorem C2_empty_input_amended_witness :
    core_process_message coreInit "   " none 0 =
      (create_response "Please enter a message so I can help you!" "empty_input" 0,
       coreInit) :=
  C2_empty_input_amended coreInit "   " none 0 (by with_unfolding_all decide)

/-- C10: in the baseline chatbot, total_requests always equals
successful_responses after any sequence of process_message calls (including
ones falling into the internal-error branch, which increments only
failed_responses) and clear_history calls, so get_analytics reports a success
rate of exactly 100 whenever total_requests is positive. -/
theorem C10_success_rate (evs : List CoreEvent) :
    (evs.foldl core_step coreInit).total_requests =
      (evs.foldl core_step coreInit).successful_responses ∧
    (0 < (evs.foldl core_step coreInit).total_requests →
      success_rate (evs.foldl core_step coreInit) = 100) := by
  have h := core_inv evs coreInit rfl
  refine ⟨h, fun hpos => ?_⟩
  unfold success_rate
  rw [if_pos hpos, ← h]
  rw [div_self (by exact_mod_cast Nat.pos_iff_ne_zero.mp hpos)]
  norm_num

/-- Witness for C10: after one successful request the reported success rate
is exactly 100. -/
theorem C10_success_rate_witness :
    success_rate ([CoreEvent.message "hi" none 0].foldl core_step coreInit) = 100 :=
  (C10_success_rate [CoreEvent.message "hi" none 0]).2 (by with_unfolding_all decide)

/-- C7 counterexample: a single request through the internal-error branch
leaves total_requests at 0 while failed_responses becomes 1, so the baseline
total does not equal the sum successful_responses + failed_responses. -/
theorem C7_counterexample :
    ¬ ((core_step coreInit CoreEvent.internalError).total_requests =
       (core_step coreInit CoreEvent.internalError).successful_responses +
       (core_step coreInit CoreEvent.internalError).failed_responses) := by
  with_unfolding_all decide

/-- C7 (amended): in the enhanced view the total request count equals
openai_requests + core_requests after any sequence of requests; in the
baseline view total_requests always equals successful_responses alone, and it
equals successful_responses + failed_responses exactly when the internal-error
branch never fired (failed_responses = 0). -/
theorem C7_total_counts_amended :
    (∀ evs : List EnhEvent,
      (evs.foldl enh_step enhInit).total_requests =
        (evs.foldl enh_step enhInit).openai_requests +
        (evs.foldl enh_step enhInit).core_requests) ∧
    (∀ evs : List CoreEvent,
      (evs.foldl core_step coreInit).total_requests =
        (evs.foldl core_step coreInit).successful_responses ∧
      ((evs.foldl core_step coreInit).failed_responses = 0 →
        (evs.foldl core_step coreInit).total_requests =
          (evs.foldl core_step coreInit).successful_responses +
          (evs.foldl core_step coreInit).failed_responses)) := by
  constructor
  · intro evs
    exact enh_inv evs enhInit rfl
  · intro evs
    have h := core_inv evs coreInit rfl
    exact ⟨h, fun hf => by omega⟩

/-- Witness for the amended C7: after one successful baseline request no
failure was recorded, and the total equals the sum of the per-source counts. -/
theorem C7_total_counts_amended_witness :
    ([CoreEvent.message "hi" none 0].foldl core_step coreInit).total_requests =
      ([CoreEvent.message "hi" none 0].foldl core_step coreInit).successful_responses +
      ([CoreEvent.message "hi" none 0].foldl core_step coreInit).failed_responses :=
  (C7_total_counts_amended.2 [CoreEvent.message "hi" none 0]).2
    (by with_unfolding_all decide)

/-- C3 counterexample: with the generative client configured and the remote
call raising, the orchestrator still increments the per-source generative
counter (openai_requests becomes 1, not 0) and tags the result with source
"openai", because the adapter swallows the failure and returns its static
fallback response. -/
theorem C3_counterexample :
    (enh_process_message enhInit "hello" none true true GenOutcome.exn 0).2.openai_requests = 1 ∧
    (enh_process_message enhInit "hello" none true true GenOutcome.exn 0).1.source = "openai" := by
  with_unfolding_all decide

/-- C3 (amended): when the generative adapter is configured and the remote
call raises on every invocation, no exception escapes the adapter boundary
(get_openai_response returns its static fallback response, intent "fallback",
confidence 0.5, model "fallback"); the orchestrator cannot distinguish this
from success, so it tags the result source "openai" and increments
openai_requests on every request, while core_requests stays unchanged and the
local corpus-enhanced and keyword strategies are never consulted. -/
theorem C3_generative_failure_amended (st : EnhAnalytics) (u : String)
    (uid : Option String) (k : Nat) :
    get_openai_response true GenOutcome.exn k = get_fallback_response k ∧
    (enh_process_message st u uid true true GenOutcome.exn k).1.source = "openai" ∧
    (enh_process_message st u uid true true GenOutcome.exn k).1.confidence = 1/2 ∧
    (enh_process_message st u uid true true GenOutcome.exn k).1.model = "fallback" ∧
    (enh_process_message st u uid true true GenOutcome.exn k).2.openai_requests =
      st.openai_requests + 1 ∧
    (enh_process_message st u uid true true GenOutcome.exn k).2.core_requests =
      st.core_requests ∧
    (enh_process_message st u uid true true GenOutcome.exn k).2.total_requests =
      st.total_requests + 1 := by
  refine ⟨rfl, ?_⟩
  simp [enh_process_message, get_openai_response, get_fallback_response]

/-! Lemmas about the rolling conversation windows. -/

lemma add_to_history_len (h : List EnhHistRecord) (r : EnhHistRecord)
    (hh : h.length ≤ 100) : (add_to_history h r).length ≤ 100 := by
  simp only [add_to_history]
  split
  next hlt =>
    simp at hlt
    simp [List.length_drop]
    omega
  next hle =>
    simp at hle ⊢
    omega

lemma window_inv (rs : List EnhHistRecord) : ∀ h : List EnhHistRecord,
    h.length ≤ 100 → (rs.foldl add_to_history h).length ≤ 100 := by
  induction rs with
  | nil => intro h hh; exact hh
  | cons r t ih =>
      intro h hh
      rw [List.foldl_cons]
      exact ih _ (add_to_history_len h r hh)

lemma window_full (rs : List EnhHistRecord) : ∀ h : List EnhHistRecord,
    h.length = 100 → rs.foldl add_to_history h = (h ++ rs).drop rs.length := by
  induction rs with
  | nil => intro h hh; simp
  | cons r t ih =>
      intro h hh
      rw [List.foldl_cons]
      have hstep : add_to_history h r = (h ++ [r]).drop 1 := by
        simp only [add_to_history]
        rw [if_pos (by simp [hh])]
        congr 1
        simp [hh]
      rw [hstep]
      have hlen : ((h ++ [r]).drop 1).length = 100 := by simp [hh]
      rw [ih _ hlen]
      have h1 : (1:Nat) ≤ (h ++ [r]).length := by simp
      rw [← List.drop_append_of_le_length h1, List.drop_drop]
      simp [List.append_assoc, Nat.add_comm]

lemma recent_len (h : List ConvRecord) : (recent_conversations h).length ≤ 10 := by
  simp only [recent_conversations, List.length_drop]
  omega

lemma recent_suffix (h : List ConvRecord) : ∃ p, h = p ++ recent_conversations h :=
  ⟨h.take (h.length - 10), (List.take_append_drop _ h).symm⟩

/-- C8: the enhanced rolling conversation window never holds more than its
capacity of 100 records; appending records to a full window drops exactly the
oldest ones, keeping the order of the remainder (the post-state is the suffix
drop of the appended sequence); and the baseline classifier\x27s own reported
view (recent_conversations, Python history[-10:]) holds at most 10 records and
is always a suffix of the full history, so the records missing from it are
exactly the oldest ones. -/
theorem C8_rolling_window :
    (∀ rs : List EnhHistRecord, (rs.foldl add_to_history []).length ≤ 100) ∧
    (∀ h rs : List EnhHistRecord, h.length = 100 →
      rs.foldl add_to_history h = (h ++ rs).drop rs.length) ∧
    (∀ h : List ConvRecord, (recent_conversations h).length ≤ 10 ∧
      ∃ p, h = p ++ recent_conversations h) :=
  ⟨fun rs => window_inv rs [] (by simp),
   fun h rs hh => window_full rs h hh,
   fun h => ⟨recent_len h, recent_suffix h⟩⟩

/-- Witness for C8: appending one record to a window of exactly 100 records
evicts exactly the oldest one. -/
theorem C8_rolling_window_witness :
    [histRec0].foldl add_to_history (List.replicate 100 histRec0) =
      ((List.replicate 100 histRec0) ++ [histRec0]).drop 1 :=
  C8_rolling_window.2.1 (List.replicate 100 histRec0) [histRec0] (by simp)

/-- C9 counterexample: generate_variations produces 5 variants for a greeting
input (the original plus four), not 3 or 4, and exactly 1 variant (the
original alone) for a returns input. -/
theorem C9_counterexample :
    (generate_variations "Hello" "greeting").length = 5 ∧
    ¬ (3 ≤ (generate_variations "Hello" "greeting").length ∧
       (generate_variations "Hello" "greeting").length ≤ 4) ∧
    (generate_variations "Refund" "returns").length = 1 := by
  with_unfolding_all decide

/-- C9 (amended): generate_variations is a pure deterministic function of the
pair (base input text, intent label): greeting inputs yield the original plus
four punctuation/prefix variants, order_status and shipping inputs yield the
original plus four task-phrase variants, and every other intent yields exactly
the original text alone; the sequence always starts with the original and has
length 5 or 1. -/
theorem C9_variations_amended (b i : String) :
    (i = "greeting" → generate_variations b i =
      [b, b ++ " there", b ++ "!", "Hey " ++ pyLower b, "Good morning " ++ pyLower b]) ∧
    (i = "order_status" → generate_variations b i =
      [b, "Where is " ++ b, "Status of " ++ b, "Track " ++ b, "Check " ++ b]) ∧
    (i = "shipping" → generate_variations b i =
      [b, "How long for " ++ b, "When will " ++ b ++ " arrive",
       "Delivery time for " ++ b, "Shipping duration for " ++ b]) ∧
    (i ≠ "greeting" → i ≠ "order_status" → i ≠ "shipping" →
      generate_variations b i = [b]) ∧
    (generate_variations b i).head? = some b ∧
    ((generate_variations b i).length = 5 ∨ (generate_variations b i).length = 1) := by
  have hcases : generate_variations b i =
        [b, b ++ " there", b ++ "!", "Hey " ++ pyLower b, "Good morning " ++ pyLower b] ∨
      generate_variations b i =
        [b, "Where is " ++ b, "Status of " ++ b, "Track " ++ b, "Check " ++ b] ∨
      generate_variations b i =
        [b, "How long for " ++ b, "When will " ++ b ++ " arrive",
         "Delivery time for " ++ b, "Shipping duration for " ++ b] ∨
      generate_variations b i = [b] := by
    by_cases h1 : i = "greeting"
    · left; simp [generate_variations, h1]
    · by_cases h2 : i = "order_status"
      · right; left; simp [generate_variations, beq_iff_eq, h1, h2]
      · by_cases h3 : i = "shipping"
        · right; right; left; simp [generate_variations, beq_iff_eq, h1, h2, h3]
        · right; right; right; simp [generate_variations, beq_iff_eq, h1, h2, h3]
  refine ⟨?_, ?_, ?_, ?_, ?_, ?_⟩
  · intro h; simp [generate_variations, h]
  · intro h; simp [generate_variations, beq_iff_eq, h]
  · intro h; simp [generate_variations, beq_iff_eq, h]
  · intro h1 h2 h3; simp [generate_variations, beq_iff_eq, h1, h2, h3]
  · rcases hcases with h | h | h | h <;> simp [h]
  · rcases hcases with h | h | h | h <;> simp [h]

/-- Witness for the amended C9: the greeting input "Hello" expands to exactly
its five variants. -/
theorem C9_variations_amended_witness :
    generate_variations "Hello" "greeting" =
      ["Hello", "Hello there", "Hello!", "Hey hello", "Good morning hello"] := by
  have h := (C9_variations_amended "Hello" "greeting").1 rfl
  rw [h]
  with_unfolding_all decide

/-! Confidence bounds for every strategy, and the concrete evaluations of the
matcher needed by the remaining claims. -/

lemma fbi_conf_bounds (u : String) :
    0 ≤ (find_best_intent u).2 ∧ (find_best_intent u).2 ≤ 1 := by
  have heq : (find_best_intent u).2 =
      if (keyword_best u).1 > 0 then min (((keyword_best u).1 : ℚ) / 3) 1 else 0 :=
    rfl
  rw [heq]
  split
  · exact ⟨le_min (by positivity) zero_le_one, min_le_right _ _⟩
  · norm_num

lemma openai_conf_bounds (c : Bool) (o : GenOutcome) (k : Nat) :
    0 ≤ (get_openai_response c o k).confidence ∧
    (get_openai_response c o k).confidence ≤ 1 := by
  unfold get_openai_response get_fallback_response
  split
  · cases o
    · constructor
      · norm_num
      · norm_num
    · constructor
      · norm_num
      · norm_num
  · constructor
    · norm_num
    · norm_num

lemma core_pm_conf_bounds (st : CoreAnalytics) (u : String) (sid : Option String)
    (k : Nat) : 0 ≤ (core_process_message st u sid k).1.confidence ∧
    (core_process_message st u sid k).1.confidence ≤ 1 := by
  unfold core_process_message
  split
  · constructor
    · simp [create_response]
    · simp [create_response]
  · simpa [create_response] using fbi_conf_bounds u

lemma pwed_conf_bounds (k : Nat) (u : String) :
    0 ≤ (process_with_enhanced_dataset k u).confidence ∧
    (process_with_enhanced_dataset k u).confidence ≤ 1 := by
  have heq : (process_with_enhanced_dataset k u).confidence =
      (find_best_intent_match (pyLower u)).confidence := rfl
  rw [heq]
  exact ⟨fbim_nonneg _, le_trans (fbim_le9 _) (by norm_num)⟩

lemma enh_pm_conf_bounds (st : EnhAnalytics) (u : String) (uid : Option String)
    (uo cl : Bool) (o : GenOutcome) (k : Nat) :
    0 ≤ (enh_process_message st u uid uo cl o k).1.confidence ∧
    (enh_process_message st u uid uo cl o k).1.confidence ≤ 1 := by
  simp only [enh_process_message]
  split
  · simpa using openai_conf_bounds cl o k
  · simpa using pwed_conf_bounds k u

/-- C6 (amended): every classification result of every strategy has
confidence in the closed interval [0, 1]: the keyword classifier, the
corpus-enhanced matcher, the OpenAI adapter, the baseline process_message, the
enhanced-dataset resolution and the enhanced process_message. The claimed
"confidence 0 iff generic-fallback source or empty input" does not hold (see
the counterexample theorem): a non-empty input matching nothing resolves with
confidence 0 under source core_enhanced. -/
theorem C6_confidence_bounds :
    (∀ u, 0 ≤ (find_best_intent u).2 ∧ (find_best_intent u).2 ≤ 1) ∧
    (∀ u, 0 ≤ (find_best_intent_match u).confidence ∧
       (find_best_intent_match u).confidence ≤ 1) ∧
    (∀ c o k, 0 ≤ (get_openai_response c o k).confidence ∧
       (get_openai_response c o k).confidence ≤ 1) ∧
    (∀ st u sid k, 0 ≤ (core_process_message st u sid k).1.confidence ∧
       (core_process_message st u sid k).1.confidence ≤ 1) ∧
    (∀ k u, 0 ≤ (process_with_enhanced_dataset k u).confidence ∧
       (process_with_enhanced_dataset k u).confidence ≤ 1) ∧
    (∀ st u uid uo cl o k, 0 ≤ (enh_process_message st u uid uo cl o k).1.confidence ∧
       (enh_process_message st u uid uo cl o k).1.confidence ≤ 1) :=
  ⟨fbi_conf_bounds,
   fun u => ⟨fbim_nonneg u, le_trans (fbim_le9 u) (by norm_num)⟩,
   openai_conf_bounds, core_pm_conf_bounds, pwed_conf_bounds, enh_pm_conf_bounds⟩

lemma foldl_id {α : Type} (step : Best → α → Best) :
    ∀ (l : List α) (b : Best), (∀ b' a, a ∈ l → step b' a = b') →
      l.foldl step b = b := by
  intro l
  induction l with
  | nil => intro b _; rfl
  | cons a t ih =>
      intro b h
      rw [List.foldl_cons, h b a (List.mem_cons_self a t)]
      exact ih b (fun b' x hx => h b' x (List.mem_cons_of_mem a hx))

lemma matchStep_id (u i : String) (b : Best) (ex : EnhExample)
    (hex : pyIn u (pyLower ex.input) = false)
    (hvar : ∀ v ∈ ex.variations, pyIn u (pyLower v) = false)
    (hk : ∀ k ∈ mappingKeywords i, pyIn k u = false) :
    matchStep u i b ex = b := by
  simp only [matchStep]
  have h2 : (ex.variations.foldl
      (fun acc v => upd acc (pyIn u (pyLower v)) (8/10) i ex.output)
      (upd b (pyIn u (pyLower ex.input)) (9/10) i ex.output)) = b := by
    rw [upd_eq_of_false b _ _ _ hex]
    exact foldl_id _ ex.variations b
      (fun b' v hv => upd_eq_of_false b' _ _ _ (hvar v hv))
  rw [h2]
  have hlen : ((mappingKeywords i).filter (fun k => pyIn k u)).length = 0 := by
    rw [List.length_eq_zero, List.filter_eq_nil_iff]
    intro a ha
    simp [hk a ha]
  refine upd_eq_of_false b _ _ _ ?_
  rw [hlen]
  rfl

lemma hasKeywordHit_iff (u : String) : hasKeywordHit u = true ↔
    ∃ p ∈ enhanced_responses, ∃ k ∈ mappingKeywords p.1, pyIn k u = true := by
  simp [hasKeywordHit, List.any_eq_true]

lemma hasKeywordHit_false_pointwise (u : String) (h : hasKeywordHit u = false) :
    ∀ p ∈ enhanced_responses, ∀ k ∈ mappingKeywords p.1, pyIn k u = false := by
  intro p hp k hk
  by_contra hc
  have ht : hasKeywordHit u = true :=
    (hasKeywordHit_iff u).mpr ⟨p, hp, k, hk, bool_eq_true_of_ne_false hc⟩
  rw [h] at ht
  exact Bool.false_ne_true ht

lemma fbim_id (u : String) (hE : hasExact u = false) (hV : hasVariation u = false)
    (hK : hasKeywordHit u = false) : find_best_intent_match u = ⟨none, 0, ""⟩ := by
  have hAllE := hasExact_false_pointwise u hE
  have hAllV := hasVariation_false_pointwise u hV
  have hAllK := hasKeywordHit_false_pointwise u hK
  simp only [find_best_intent_match]
  refine foldl_id _ enhanced_responses _ ?_
  intro b p hp
  refine foldl_id _ p.2 b ?_
  intro b' ex hex
  exact matchStep_id u p.1 b' ex (hAllE p hp ex hex)
    (fun v hv => hAllV p hp ex hex v hv) (fun k hk => hAllK p hp k hk)

lemma fbim_zzz : find_best_intent_match (pyLower "zzz") = ⟨none, 0, ""⟩ :=
  fbim_id _ (by with_unfolding_all decide) (by with_unfolding_all decide)
    (by with_unfolding_all decide)

lemma fbim_empty_conf : (find_best_intent_match (pyLower "")).confidence = 9/10 :=
  fbim_exact _ (by with_unfolding_all decide)

/-- C6 counterexample: the non-empty input "zzz" matches nothing in the
corpus, and the enhanced pipeline returns confidence exactly 0 with source
"core_enhanced" — not a generic-fallback source — refuting the claimed "iff"
between confidence 0 and generic-fallback-or-empty. -/
theorem C6_counterexample :
    (enh_process_message enhInit "zzz" none false false GenOutcome.exn 0).1.confidence = 0 ∧
    (enh_process_message enhInit "zzz" none false false GenOutcome.exn 0).1.source =
      "core_enhanced" ∧
    "zzz".trim.isEmpty = false := by
  refine ⟨?_, ?_, by with_unfolding_all decide⟩
  · simp [enh_process_message, process_with_enhanced_dataset, tripleTruthy, fbim_zzz]
  · simp [enh_process_message, process_with_enhanced_dataset, tripleTruthy, fbim_zzz]

/-- C1: contrary to the claim, when the Corpus-Enhanced Matcher finds no
positive-confidence candidate the baseline Keyword Classifier is NOT called:
_find_best_intent_match returns the tuple (None, 0.0, ""), the Python test
`if best_match:` on a 3-tuple is constantly true (tripleTruthy), so the
orchestrator returns the empty-text, intent-None, confidence-0 result and the
fallback call on line 128 is unreachable dead code. On the no-match input
"zzz" the resolution result is exactly that empty result. -/
theorem C1_dead_fallback :
    (∀ b, tripleTruthy b = true) ∧
    process_with_enhanced_dataset 0 "zzz" = ⟨"", none, 0⟩ := by
  refine ⟨fun _ => rfl, ?_⟩
  simp [process_with_enhanced_dataset, tripleTruthy, fbim_zzz]

/-- C2 counterexample: the enhanced entry point performs no empty-input check:
on the empty string (which is whitespace-only) it increments total_requests to
1 and resolves through the corpus matcher at confidence 0.9 (the empty string
is a substring of every stored example), instead of returning a confidence-0
prompt without counting the request. -/
theorem C2_counterexample :
    "".trim.isEmpty = true ∧
    (enh_process_message enhInit "" none false false GenOutcome.exn 0).1.confidence = 9/10 ∧
    (enh_process_message enhInit "" none false false GenOutcome.exn 0).2.total_requests = 1 := by
  refine ⟨by with_unfolding_all decide, ?_, ?_⟩
  · simp [enh_process_message, process_with_enhanced_dataset, tripleTruthy, fbim_empty_conf]
  · simp [enh_process_message, process_with_enhanced_dataset, tripleTruthy, enhInit]

end Chatbot
